import Mathlib

/-!
Verification of the eJuuz website client-side behavior layer (src/script.js)
against its natural-language specification.

The JavaScript source is shallowly embedded: pure helpers become Lean
functions, DOM/event state becomes explicit record state, timer-driven
behavior becomes explicit event traces, and the simulated transport becomes a
function of the random draw.  JS numbers that are used as integers are
modelled by Nat/Int, and the uniform random draw by a rational in [0, 1).
-/

namespace EJuuz

/-! ## 1. CONFIG constants (src/script.js, CONFIG object) -/

def MOBILE_BREAKPOINT : Nat := 768
def TABLET_BREAKPOINT : Nat := 1024
def CHAT_AUTO_CLOSE : Nat := 30000
def CHAT_MIN_RESPONSE_TIME : ℚ := 1000
def CHAT_MAX_RESPONSE_TIME : ℚ := 3000

/-! ## 2. Utility layer -/

/-- Embedding of utils.getDeviceType: classify a viewport width. -/
def getDeviceType (width : Nat) : String :=
  if width < MOBILE_BREAKPOINT then "mobile"
  else if width < TABLET_BREAKPOINT then "tablet"
  else "desktop"

/-- The character class of the JavaScript regex token backslash-s
(ECMAScript WhiteSpace and LineTerminator code points). -/
def isJsSpace (c : Char) : Bool :=
  c == ' ' || c == '\t' || c == '\n' || c == '\r' || c == '\x0b' || c == '\x0c' ||
  c == '\u00a0' || c == '\u1680' || c == '\u2000' || c == '\u2001' || c == '\u2002' ||
  c == '\u2003' || c == '\u2004' || c == '\u2005' || c == '\u2006' || c == '\u2007' ||
  c == '\u2008' || c == '\u2009' || c == '\u200a' || c == '\u2028' || c == '\u2029' ||
  c == '\u202f' || c == '\u205f' || c == '\u3000' || c == '\ufeff'

/-- The bracket class of the email regex: any character that is neither
whitespace nor the at sign. -/
def okChar (c : Char) : Bool :=
  !(isJsSpace c) && c != '@'

/-- Matches one-or-more ok characters, consuming the whole list
(the final plus-group of the email regex). -/
def plusMatch (l : List Char) : Bool :=
  !l.isEmpty && l.all okChar

/-- Matches zero-or-more ok characters, then a literal dot, then a final
plus-group, consuming the whole list. -/
def dotTail : List Char → Bool
  | [] => false
  | c :: rest => (c == '.' && plusMatch rest) || (okChar c && dotTail rest)

/-- Matches the domain part of the email regex: one-or-more ok characters,
a literal dot, then one-or-more ok characters. -/
def domainMatch : List Char → Bool
  | [] => false
  | c :: rest => okChar c && dotTail rest

/-- Matches zero-or-more ok characters, then a literal at sign, then the
domain part, consuming the whole list. -/
def atTail : List Char → Bool
  | [] => false
  | c :: rest => (c == '@' && domainMatch rest) || (okChar c && atTail rest)

/-- Full-anchor match of the email regex pattern: a nonempty local part of
ok characters, an at sign, then the domain part. -/
def emailCore : List Char → Bool
  | [] => false
  | c :: rest => okChar c && atTail rest

/-- Embedding of utils.validateEmail: the source lowercases the string and
tests it against the anchored email regex.  JS toLowerCase is modelled as a
per-character basic-latin lowercase map. -/
def validateEmail (email : String) : Bool :=
  emailCore (email.data.map Char.toLower)

/-- Specification-side reading of the claim: the string itself matches the
regex, stated as the existence of a decomposition into a nonempty local
part, the at sign, a nonempty domain label, a dot and a nonempty tail, all
drawn from the non-space non-at character class. -/
def specEmailPattern (s : String) : Prop :=
  ∃ a b c : List Char,
    s.data = a ++ '@' :: (b ++ '.' :: c) ∧
    a ≠ [] ∧ b ≠ [] ∧ c ≠ [] ∧
    (∀ x ∈ a, okChar x = true) ∧ (∀ x ∈ b, okChar x = true) ∧
    (∀ x ∈ c, okChar x = true)

/-- Embedding of JS String.prototype.trim: drop leading and trailing
whitespace code points. -/
def jsTrim (s : String) : String :=
  ⟨((s.data.dropWhile isJsSpace).reverse.dropWhile isJsSpace).reverse⟩

/-! ## 3. Field-level validation (validateField) -/

/-- A form field as validateField sees it: its current value, whether the
required attribute is set, the type attribute, and the minLength IDL
attribute (which is -1 when the markup declares no minimum). -/
structure Field where
  value : String
  required : Bool
  type : String
  minLength : Int

/-- Embedding of validateField (the pure validity verdict; the error-class
and aria-invalid reflection carries the same boolean).  Mirrors the three
sequential checks of the source, including the JS truthiness tests: the
email check is skipped when the trimmed value is empty, and the minLength
check is skipped when minLength is 0 (falsy). -/
def validateField (f : Field) : Bool :=
  let value := jsTrim f.value
  let requiredFail := f.required && value.data.isEmpty
  let emailFail := f.type == "email" && !value.data.isEmpty && !validateEmail value
  let minLenFail := f.minLength != 0 && (value.length : Int) < f.minLength
  !requiredFail && !emailFail && !minLenFail

/-- The claim C3 predicate, stated exactly as the claim words it: valid iff
(not required, or trimmed nonempty) and (not type email, or the value
matches the email pattern) and (no declared minimum, or trimmed length at
least the minimum). -/
def claimFieldValid (f : Field) : Prop :=
  (f.required = false ∨ (jsTrim f.value).data ≠ []) ∧
  (f.type ≠ "email" ∨ validateEmail (jsTrim f.value) = true) ∧
  (f.minLength ≤ 0 ∨ f.minLength ≤ ((jsTrim f.value).length : Int))

/-! ## 4. Chat-form composite validation and submission flow -/

/-- The chat form payload as read through FormData.get: each control is
either absent (null) or carries a string value. -/
structure ChatFormData where
  name : Option String
  email : Option String
  message : Option String
deriving DecidableEq

/-- Embedding of validateChatForm: trim the three fields, then apply the
three sequential early-return checks of the source (missing or too-short
name, missing or ill-formed email, missing or too-short message). -/
def validateChatForm (fd : ChatFormData) : Bool :=
  match fd.name.map jsTrim, fd.email.map jsTrim, fd.message.map jsTrim with
  | some n, some e, some m =>
      !(n.data.isEmpty || n.length < 2) &&
      !(e.data.isEmpty || !validateEmail e) &&
      !(m.data.isEmpty || m.length < 10)
  | _, _, _ => false

/-- The flavor of a chat status line (the status-... CSS class argument of
showChatStatus). -/
inductive StatusKind
  | info
  | error
  | success
  | sending
deriving DecidableEq

/-- Who a transcript entry is attributed to (addChatMessage sender). -/
inductive Sender
  | bot
  | user
deriving DecidableEq

/-- The part of the widget state handleChatSubmit reads and writes: the
live form controls, the chat transcript, the inline status line, and the
submit-button busy flag. -/
structure ChatState where
  form : ChatFormData
  transcript : List (String × Sender)
  status : Option (String × StatusKind)
  buttonLoading : Bool
deriving DecidableEq

/-- The transcript entry appended on success. -/
def botReceiptMessage : String :=
  "Your message has been received. We will get back to you soon!"

/-- Embedding of simulateApiCall: the promise always resolves (the executor
only ever calls resolve), after a delay of
random * (CHAT_MAX_RESPONSE_TIME - CHAT_MIN_RESPONSE_TIME) + CHAT_MIN_RESPONSE_TIME
milliseconds, where random is the Math.random draw.  The error side of the
Except mirrors the rejection channel of the promise, which the source never
uses. -/
def simulateApiCall (random : ℚ) : Except Unit ℚ :=
  Except.ok (random * (CHAT_MAX_RESPONSE_TIME - CHAT_MIN_RESPONSE_TIME) +
    CHAT_MIN_RESPONSE_TIME)

/-- Which exit handleChatSubmit took. -/
inductive SubmitOutcome
  | validationError
  | success
  | failure
deriving DecidableEq

/-- The observable result of one handleChatSubmit run: the widget state when
the handler settles, whether the simulated transport was invoked, and which
branch finished the run. -/
structure SubmitResult where
  state : ChatState
  transportInvoked : Bool
  outcome : SubmitOutcome
deriving DecidableEq

/-- Embedding of handleChatSubmit for a submit event, as a function of the
widget state and of the Math.random draw consumed by simulateApiCall.
If the composite validator rejects, the handler shows the inline error
status and returns before any transport action.  Otherwise it shows the
sending status, awaits the transport, and on resolution shows the success
status, resets the form and appends the bot transcript entry; the catch
clause (failure branch) mirrors the try/catch of the source and the finally
clause clears the button busy flag. -/
def handleChatSubmit (st : ChatState) (random : ℚ) : SubmitResult :=
  if !validateChatForm st.form then
    { state := { st with
        status := some ("Please fill in all required fields correctly.", .error) }
      transportInvoked := false
      outcome := .validationError }
  else
    let sending : ChatState := { st with
      buttonLoading := true
      status := some ("Sending your message...", .sending) }
    match simulateApiCall random with
    | .ok _ =>
        { state := { sending with
            status := some ("Thank you! Our team will respond within 24 hours.",
              .success)
            form := ⟨some "", some "", some ""⟩
            transcript := sending.transcript ++ [(botReceiptMessage, .bot)]
            buttonLoading := false }
          transportInvoked := true
          outcome := .success }
    | .error _ =>
        { state := { sending with
            status := some ("Sorry, something went wrong. Please try again.",
              .error)
            buttonLoading := false }
          transportInvoked := true
          outcome := .failure }

/-! ## 5. Chat panel open/close timeline (auto-close timer of
handleChatSubmit, handleChatToggle, handleChatClose) -/

/-- The events that can change isChatOpen while the auto-close timer is
pending: the chat toggle control (handleChatToggle flips the flag), an
explicit close (handleChatClose, escape key, outside click all assign
false), and the timer callback itself, which unconditionally assigns
false. -/
inductive ChatUiEvent
  | toggle
  | closeChat
  | autoCloseFire
deriving DecidableEq

/-- How each event rewrites isChatOpen in the source. -/
def chatStep (openFlag : Bool) : ChatUiEvent → Bool
  | .toggle => !openFlag
  | .closeChat => false
  | .autoCloseFire => false

/-- Run a sequence of chat UI events from a starting isChatOpen value. -/
def runChatEvents (openFlag : Bool) (evs : List ChatUiEvent) : Bool :=
  evs.foldl chatStep openFlag

/-- The instant the auto-close timer scheduled at time t0 fires. -/
def autoCloseFireTime (t0 : Nat) : Nat := t0 + CHAT_AUTO_CLOSE

/-- isChatOpen immediately after the auto-close timer fires, given the
timestamped user events that happened after the successful submission at
time t0 (the panel is open at that point).  User events at or after the
fire instant have not happened yet; the timer callback then runs. -/
def openAfterAutoClose (userEvents : List (Nat × ChatUiEvent)) (t0 : Nat) : Bool :=
  chatStep
    (runChatEvents true
      ((userEvents.filter (fun te => te.1 < autoCloseFireTime t0)).map Prod.snd))
    .autoCloseFire

/-- The claim C9 reading of the timer: the panel ends closed at the fire
instant, unless the user already closed or reopened it beforehand, in which
case the auto-return does not happen (a reopened panel stays open). -/
def claimAutoClose (userEvents : List (Nat × ChatUiEvent)) (t0 : Nat) : Prop :=
  (userEvents.filter (fun te => te.1 < autoCloseFireTime t0)).map Prod.snd ≠ [] →
  runChatEvents true
      ((userEvents.filter (fun te => te.1 < autoCloseFireTime t0)).map Prod.snd)
      = true →
  openAfterAutoClose userEvents t0 = true

/-! ## 6. Navigation widget state (openNav, closeNav, updateNavState) -/

/-- The state updateNavState reads and reflects: the isNavOpen flag, the
cached device classification, the CSS and ARIA reflections, and the body
scroll-lock style. -/
structure NavUiState where
  isNavOpen : Bool
  deviceType : String
  navMobileActive : Bool
  toggleActive : Bool
  ariaExpanded : Bool
  bodyOverflow : String
deriving DecidableEq

/-- Embedding of updateNavState (with the nav and nav-toggle elements
present): reflect isNavOpen into the mobile-active class, the toggle active
class and aria-expanded, and on mobile set the body overflow to hidden or
clear it. -/
def updateNavState (s : NavUiState) : NavUiState :=
  { s with
    navMobileActive := s.isNavOpen
    toggleActive := s.isNavOpen
    ariaExpanded := s.isNavOpen
    bodyOverflow :=
      if s.deviceType = "mobile" then (if s.isNavOpen then "hidden" else "")
      else s.bodyOverflow }

/-- Embedding of openNav: set the flag, then reconcile. -/
def openNav (s : NavUiState) : NavUiState :=
  updateNavState { s with isNavOpen := true }

/-- Embedding of closeNav: clear the flag, then reconcile. -/
def closeNav (s : NavUiState) : NavUiState :=
  updateNavState { s with isNavOpen := false }

/-! ## 7. Active-section tracker (updateActiveNavLink) -/

/-- A document section as the tracker sees it: its id attribute, offsetTop
and offsetHeight. -/
structure PageSection where
  id : String
  offsetTop : Int
  offsetHeight : Int
deriving DecidableEq

/-- Whether the probe point lies in the vertical extent of a section, as the
source tests it (both ends inclusive). -/
def sectionContains (p : Int) (s : PageSection) : Prop :=
  s.offsetTop ≤ p ∧ p ≤ s.offsetTop + s.offsetHeight

instance (p : Int) (s : PageSection) : Decidable (sectionContains p s) := by
  unfold sectionContains; infer_instance

/-- Distance from the probe point to the top edge of a section. -/
def sectionDistance (p : Int) (s : PageSection) : Int :=
  |p - s.offsetTop|

/-- One iteration of the forEach body of updateActiveNavLink: when the
section contains the probe point and its distance beats the minimum so far,
it becomes the current best; none plays the role of the initial null
currentActive with infinite minDistance. -/
def navScanStep (p : Int) (acc : Option (String × Int)) (s : PageSection) :
    Option (String × Int) :=
  if sectionContains p s then
    let d := sectionDistance p s
    match acc with
    | none => some (s.id, d)
    | some (_, m) => if d < m then some (s.id, d) else acc
  else acc

/-- The forEach scan of updateActiveNavLink over all sections. -/
def navScan (p : Int) (sections : List PageSection) : Option (String × Int) :=
  sections.foldl (navScanStep p) none

/-- Embedding of updateActiveNavLink as the new currentSection value: the
probe point is scrollPosition plus the header height plus the fixed offset
of 100, and the final assignment is currentActive-or-home, where the or is
JS truthiness (a falsy empty-string id also falls back to home). -/
def updateActiveNavLink (scrollPosition headerHeight : Int)
    (sections : List PageSection) : String :=
  match navScan (scrollPosition + headerHeight + 100) sections with
  | none => "home"
  | some (id, _) => if id = "" then "home" else id

/-- The three-section layout of the spec example. -/
def demoSections : List PageSection :=
  [⟨"home", 0, 500⟩, ⟨"about", 500, 700⟩, ⟨"contact", 1200, 800⟩]

/-! ## 8. Listener registry and teardown (setupEventListeners, initApp,
destroy) -/

/-- The event names the application attaches handlers for. -/
inductive EvName
  | click
  | submit
  | blurEv
  | inputEv
  | scroll
  | resizeEv
  | loadEv
  | keydown
  | visibilitychange
  | touchstart
  | touchmove
  | popstate
  | locationchange
  | changeEv
  | errorEv
  | unhandledrejection
deriving DecidableEq

/-- The attachment targets: window, document, and the cached elements. -/
inductive EvTarget
  | win
  | doc
  | navToggleEl
  | navLinkEl (i : Nat)
  | chatToggleEl
  | chatCloseEl
  | chatFormEl
  | chatInputEl (i : Nat)
  | newsletterFormEl
  | genFormEl (i : Nat)
  | backToTopEl
  | connectionObj
deriving DecidableEq

/-- One callback identity per addEventListener call site of the source. -/
inductive EvHandler
  | navToggleH
  | navLinkH (i : Nat)
  | chatToggleH
  | chatCloseH
  | chatSubmitH
  | blurValidateH (i : Nat)
  | inputClearH (i : Nat)
  | newsletterH
  | genFormH (i : Nat)
  | backToTopH
  | scrollH
  | resizeH
  | loadH
  | keydownH
  | clickOutsideH
  | visibilityH
  | popStateH
  | locChangeH
  | touchNoopH
  | swRegisterH
  | netChangeH
  | globalErrorH
  | globalRejectH
deriving DecidableEq

/-- A (target, event, callback) attachment triple. -/
structure Listener where
  target : EvTarget
  evName : EvName
  handler : EvHandler
deriving DecidableEq

/-- The handlers that are attached without being pushed onto the
eventListeners registry: the passive touch no-ops, the service-worker load
hook, the network-information change hook, and the two global handlers
installed by initApp. -/
def isUnrecordedHandler : EvHandler → Bool
  | .touchNoopH => true
  | .swRegisterH => true
  | .netChangeH => true
  | .globalErrorH => true
  | .globalRejectH => true
  | _ => false

/-- The shape of the host document and environment as far as event wiring is
concerned: which optional elements the element cache finds, how many nav
links, chat inputs and generic forms there are, and which environment
features are present. -/
structure Page where
  hasNavToggle : Bool
  navLinkCount : Nat
  hasChatToggle : Bool
  hasChatClose : Bool
  hasChatForm : Bool
  chatInputCount : Nat
  hasNewsletterForm : Bool
  genFormCount : Nat
  isHttps : Bool
  hasPushState : Bool
  hasConnection : Bool
  hasIntersectionObserver : Bool
  hasNativeLazyLoading : Bool

/-- The triples setupEventListeners attaches and records, in source order
(the back-to-top element always exists because cacheElements synthesizes it
when absent; the per-input blur and input handlers are grouped by event
kind here, which leaves the registry contents unchanged). -/
def setupRecorded (p : Page) : List Listener :=
  (if p.hasNavToggle then [⟨.navToggleEl, .click, .navToggleH⟩] else []) ++
  (List.range p.navLinkCount).map (fun i => ⟨.navLinkEl i, .click, .navLinkH i⟩) ++
  (if p.hasChatToggle then [⟨.chatToggleEl, .click, .chatToggleH⟩] else []) ++
  (if p.hasChatClose then [⟨.chatCloseEl, .click, .chatCloseH⟩] else []) ++
  (if p.hasChatForm then
    ⟨.chatFormEl, .submit, .chatSubmitH⟩ ::
      ((List.range p.chatInputCount).map
        (fun i => ⟨.chatInputEl i, .blurEv, .blurValidateH i⟩) ++
       (List.range p.chatInputCount).map
        (fun i => ⟨.chatInputEl i, .inputEv, .inputClearH i⟩))
   else []) ++
  (if p.hasNewsletterForm then [⟨.newsletterFormEl, .submit, .newsletterH⟩] else []) ++
  (List.range p.genFormCount).map (fun i => ⟨.genFormEl i, .submit, .genFormH i⟩) ++
  [⟨.backToTopEl, .click, .backToTopH⟩,
   ⟨.win, .scroll, .scrollH⟩, ⟨.win, .resizeEv, .resizeH⟩, ⟨.win, .loadEv, .loadH⟩,
   ⟨.doc, .keydown, .keydownH⟩, ⟨.doc, .click, .clickOutsideH⟩,
   ⟨.doc, .visibilitychange, .visibilityH⟩]

/-- The triples observeNavigationState attaches and records. -/
def navObserveRecorded (p : Page) : List Listener :=
  if p.hasPushState then
    [⟨.win, .popstate, .popStateH⟩, ⟨.win, .locationchange, .locChangeH⟩]
  else []

/-- The service-worker registration hook initServiceWorker attaches on https
pages, without recording it. -/
def swListeners (p : Page) : List Listener :=
  if p.isHttps then [⟨.win, .loadEv, .swRegisterH⟩] else []

/-- The network-information change hook observeNetworkStatus attaches when
navigator.connection exists, without recording it. -/
def netListeners (p : Page) : List Listener :=
  if p.hasConnection then [⟨.connectionObj, .changeEv, .netChangeH⟩] else []

/-- The passive touch no-ops setupPassiveEventListeners attaches, without
recording them. -/
def touchListeners : List Listener :=
  [⟨.doc, .touchstart, .touchNoopH⟩, ⟨.doc, .touchmove, .touchNoopH⟩]

/-- The global error and unhandled-rejection handlers initApp attaches on
window, outside the class and outside the registry. -/
def globalListeners : List Listener :=
  [⟨.win, .errorEv, .globalErrorH⟩, ⟨.win, .unhandledrejection, .globalRejectH⟩]

/-- The registry (this.eventListeners) right after initialization. -/
def registryAfterInit (p : Page) : List Listener :=
  setupRecorded p ++ navObserveRecorded p

/-- Everything actually attached to the DOM after initialization, in the
order the source attaches it: the class wiring, then initServiceWorker,
then observeNavigationState and observeNetworkStatus, then the passive
touch listeners, then the two initApp globals. -/
def attachedAfterInit (p : Page) : List Listener :=
  setupRecorded p ++ swListeners p ++ navObserveRecorded p ++ netListeners p ++
    touchListeners ++ globalListeners

/-- The observers the application starts. -/
inductive ObserverRec
  | intersectionObs
  | darkModeMedia
  | motionMedia
  | imageFallbackObs
deriving DecidableEq

/-- The observers pushed onto this.observers: the in-view intersection
observer when the API exists, and the two media-query listeners. -/
def observersRecordedAfterInit (p : Page) : List ObserverRec :=
  (if p.hasIntersectionObserver then [.intersectionObs] else []) ++
  [.darkModeMedia, .motionMedia]

/-- All live observers: the recorded ones plus the lazy-image fallback
observer, which setupLazyLoadFallback starts without recording when native
lazy loading is missing but IntersectionObserver exists. -/
def observersActiveAfterInit (p : Page) : List ObserverRec :=
  observersRecordedAfterInit p ++
  (if !p.hasNativeLazyLoading && p.hasIntersectionObserver then
    [.imageFallbackObs] else [])

/-- The runtime wiring state: what is attached to the document, what the
registry records, and the live and recorded observers. -/
structure AppRuntime where
  attached : List Listener
  eventListeners : List Listener
  observersRecorded : List ObserverRec
  observersActive : List ObserverRec

/-- The wiring state after initApp has constructed the singleton. -/
def initRuntime (p : Page) : AppRuntime :=
  { attached := attachedAfterInit p
    eventListeners := registryAfterInit p
    observersRecorded := observersRecordedAfterInit p
    observersActive := observersActiveAfterInit p }

/-- Embedding of destroy(): removeEventListener for every recorded triple
and empty the registry; disconnect or remove-listener every recorded
observer and empty the list.  Unrecorded attachments are untouched. -/
def destroy (rt : AppRuntime) : AppRuntime :=
  { attached := rt.eventListeners.foldl (fun a l => a.erase l) rt.attached
    eventListeners := []
    observersRecorded := []
    observersActive := rt.observersRecorded.foldl (fun a o => a.erase o)
      rt.observersActive }

/-- Dispatching an event at a target invokes exactly the handlers still
attached for that (target, event) pair. -/
def invokedBy (rt : AppRuntime) (t : EvTarget) (e : EvName) : List EvHandler :=
  (rt.attached.filter (fun l => l.target = t && l.evName = e)).map Listener.handler

/-- A fully-featured concrete page used as the explicit input of the C8
counterexample. -/
def demoPage : Page :=
  { hasNavToggle := true, navLinkCount := 4, hasChatToggle := true
    hasChatClose := true, hasChatForm := true, chatInputCount := 3
    hasNewsletterForm := true, genFormCount := 2, isHttps := true
    hasPushState := true, hasConnection := true
    hasIntersectionObserver := true, hasNativeLazyLoading := false }

/-! ## 9. Helper lemmas: characters and the email matcher -/

lemma char_toNat_inj {c d : Char} (h : c.toNat = d.toNat) : c = d :=
  Char.ext (UInt32.toNat.inj h)

lemma char_beq_iff_toNat (c d : Char) : (c == d) = (c.toNat == d.toNat) := by
  by_cases h : c = d
  · subst h; simp
  · have h2 : c.toNat ≠ d.toNat := fun hn => h (char_toNat_inj hn)
    simp [h, h2]

lemma toNat_ofNat_of_lt {n : Nat} (h : n < 55296) : (Char.ofNat n).toNat = n := by
  have hv : n.isValidChar := Or.inl h
  unfold Char.ofNat
  rw [dif_pos hv]
  rfl

lemma toNat_toLower (c : Char) :
    (Char.toLower c).toNat =
      if 65 ≤ c.toNat ∧ c.toNat ≤ 90 then c.toNat + 32 else c.toNat := by
  unfold Char.toLower
  split
  · next h =>
    rw [if_pos ⟨h.1, h.2⟩]
    exact toNat_ofNat_of_lt (by omega)
  · next h => rw [if_neg h]

lemma okChar_eq_nat (c : Char) :
    okChar c = (!(c.toNat == 32 || c.toNat == 9 || c.toNat == 10 || c.toNat == 13 ||
      c.toNat == 11 || c.toNat == 12 || c.toNat == 160 || c.toNat == 5760 ||
      c.toNat == 8192 || c.toNat == 8193 || c.toNat == 8194 || c.toNat == 8195 ||
      c.toNat == 8196 || c.toNat == 8197 || c.toNat == 8198 || c.toNat == 8199 ||
      c.toNat == 8200 || c.toNat == 8201 || c.toNat == 8202 || c.toNat == 8232 ||
      c.toNat == 8233 || c.toNat == 8239 || c.toNat == 8287 || c.toNat == 12288 ||
      c.toNat == 65279) && !(c.toNat == 64)) := by
  unfold okChar isJsSpace
  rw [bne]
  simp only [char_beq_iff_toNat]
  rfl

lemma okChar_toLower (c : Char) : okChar (Char.toLower c) = okChar c := by
  rw [okChar_eq_nat, okChar_eq_nat, toNat_toLower]
  split
  · next h =>
    rw [Bool.eq_iff_iff]
    simp only [Bool.and_eq_true, Bool.not_eq_true', Bool.or_eq_false_iff,
      beq_eq_false_iff_ne, ne_eq]
    omega
  · rfl

lemma toLower_beq_dot (c : Char) : (Char.toLower c == '.') = (c == '.') := by
  rw [char_beq_iff_toNat, char_beq_iff_toNat, toNat_toLower]
  have h46 : ('.').toNat = 46 := rfl
  rw [h46]
  split
  · next h =>
    rw [Bool.eq_iff_iff]
    simp only [beq_iff_eq]
    omega
  · rfl

lemma toLower_beq_at (c : Char) : (Char.toLower c == '@') = (c == '@') := by
  rw [char_beq_iff_toNat, char_beq_iff_toNat, toNat_toLower]
  have h64 : ('@').toNat = 64 := rfl
  rw [h64]
  split
  · next h =>
    rw [Bool.eq_iff_iff]
    simp only [beq_iff_eq]
    omega
  · rfl

lemma plusMatch_iff (l : List Char) :
    plusMatch l = true ↔ l ≠ [] ∧ ∀ x ∈ l, okChar x = true := by
  simp [plusMatch, List.isEmpty_iff, List.all_eq_true]

lemma dotTail_iff (l : List Char) :
    dotTail l = true ↔
      ∃ b c, l = b ++ '.' :: c ∧ (∀ x ∈ b, okChar x = true) ∧ plusMatch c = true := by
  induction l with
  | nil =>
    simp only [dotTail, Bool.false_eq_true, false_iff]
    rintro ⟨b, c, h, -, -⟩
    cases b <;> simp_all
  | cons x rest ih =>
    simp only [dotTail, Bool.or_eq_true, Bool.and_eq_true, beq_iff_eq]
    constructor
    · rintro (⟨rfl, hp⟩ | ⟨hok, ht⟩)
      · exact ⟨[], rest, rfl, by simp, hp⟩
      · obtain ⟨b, c, rfl, hb, hc⟩ := ih.1 ht
        refine ⟨x :: b, c, rfl, ?_, hc⟩
        intro y hy
        rcases List.mem_cons.1 hy with rfl | hy
        · exact hok
        · exact hb y hy
    · rintro ⟨b, c, heq, hb, hc⟩
      cases b with
      | nil =>
        simp only [List.nil_append, List.cons.injEq] at heq
        exact Or.inl ⟨heq.1, heq.2 ▸ hc⟩
      | cons y b' =>
        simp only [List.cons_append, List.cons.injEq] at heq
        refine Or.inr ⟨heq.1 ▸ hb y (List.mem_cons_self y b'), ?_⟩
        exact ih.2 ⟨b', c, heq.2, fun z hz => hb z (List.mem_cons_of_mem y hz), hc⟩

lemma domainMatch_iff (l : List Char) :
    domainMatch l = true ↔
      ∃ b c, l = b ++ '.' :: c ∧ b ≠ [] ∧ (∀ x ∈ b, okChar x = true) ∧
        plusMatch c = true := by
  cases l with
  | nil =>
    simp only [domainMatch, Bool.false_eq_true, false_iff]
    rintro ⟨b, c, h, hb, -, -⟩
    cases b <;> simp_all
  | cons x rest =>
    simp only [domainMatch, Bool.and_eq_true, dotTail_iff]
    constructor
    · rintro ⟨hok, b, c, rfl, hb, hc⟩
      refine ⟨x :: b, c, rfl, by simp, ?_, hc⟩
      intro y hy
      rcases List.mem_cons.1 hy with rfl | hy
      · exact hok
      · exact hb y hy
    · rintro ⟨b, c, heq, hbne, hb, hc⟩
      cases b with
      | nil => simp_all
      | cons y b' =>
        simp only [List.cons_append, List.cons.injEq] at heq
        refine ⟨heq.1 ▸ hb y (List.mem_cons_self y b'), b', c, heq.2, ?_, hc⟩
        exact fun z hz => hb z (List.mem_cons_of_mem y hz)

lemma atTail_iff (l : List Char) :
    atTail l = true ↔
      ∃ a d, l = a ++ '@' :: d ∧ (∀ x ∈ a, okChar x = true) ∧
        domainMatch d = true := by
  induction l with
  | nil =>
    simp only [atTail, Bool.false_eq_true, false_iff]
    rintro ⟨a, d, h, -, -⟩
    cases a <;> simp_all
  | cons x rest ih =>
    simp only [atTail, Bool.or_eq_true, Bool.and_eq_true, beq_iff_eq]
    constructor
    · rintro (⟨rfl, hp⟩ | ⟨hok, ht⟩)
      · exact ⟨[], rest, rfl, by simp, hp⟩
      · obtain ⟨a, d, rfl, ha, hd⟩ := ih.1 ht
        refine ⟨x :: a, d, rfl, ?_, hd⟩
        intro y hy
        rcases List.mem_cons.1 hy with rfl | hy
        · exact hok
        · exact ha y hy
    · rintro ⟨a, d, heq, ha, hd⟩
      cases a with
      | nil =>
        simp only [List.nil_append, List.cons.injEq] at heq
        exact Or.inl ⟨heq.1, heq.2 ▸ hd⟩
      | cons y a' =>
        simp only [List.cons_append, List.cons.injEq] at heq
        refine Or.inr ⟨heq.1 ▸ ha y (List.mem_cons_self y a'), ?_⟩
        exact ih.2 ⟨a', d, heq.2, fun z hz => ha z (List.mem_cons_of_mem y hz), hd⟩

lemma emailCore_iff (l : List Char) :
    emailCore l = true ↔
      ∃ a b c, l = a ++ '@' :: (b ++ '.' :: c) ∧ a ≠ [] ∧ b ≠ [] ∧ c ≠ [] ∧
        (∀ x ∈ a, okChar x = true) ∧ (∀ x ∈ b, okChar x = true) ∧
        (∀ x ∈ c, okChar x = true) := by
  cases l with
  | nil =>
    simp only [emailCore, Bool.false_eq_true, false_iff]
    rintro ⟨a, b, c, h, ha, -, -, -, -, -⟩
    cases a <;> simp_all
  | cons x rest =>
    simp only [emailCore, Bool.and_eq_true, atTail_iff]
    constructor
    · rintro ⟨hok, a, d, rfl, ha, hd⟩
      obtain ⟨b, c, rfl, hbne, hb, hc⟩ := (domainMatch_iff d).1 hd
      obtain ⟨hcne, hcall⟩ := (plusMatch_iff c).1 hc
      refine ⟨x :: a, b, c, rfl, by simp, hbne, hcne, ?_, hb, hcall⟩
      intro y hy
      rcases List.mem_cons.1 hy with rfl | hy
      · exact hok
      · exact ha y hy
    · rintro ⟨a, b, c, heq, hane, hbne, hcne, ha, hb, hc⟩
      cases a with
      | nil => simp_all
      | cons y a' =>
        simp only [List.cons_append, List.cons.injEq] at heq
        refine ⟨heq.1 ▸ ha y (List.mem_cons_self y a'), a', b ++ '.' :: c, heq.2,
          fun z hz => ha z (List.mem_cons_of_mem y hz), ?_⟩
        exact (domainMatch_iff _).2 ⟨b, c, rfl, hbne, hb,
          (plusMatch_iff c).2 ⟨hcne, hc⟩⟩

lemma plusMatch_map_toLower (l : List Char) :
    plusMatch (l.map Char.toLower) = plusMatch l := by
  unfold plusMatch
  rw [List.all_map]
  cases l <;> simp [Function.comp_def, okChar_toLower]

lemma dotTail_map_toLower (l : List Char) :
    dotTail (l.map Char.toLower) = dotTail l := by
  induction l with
  | nil => rfl
  | cons x rest ih =>
    simp only [List.map_cons, dotTail, toLower_beq_dot, okChar_toLower,
      plusMatch_map_toLower, ih]

lemma domainMatch_map_toLower (l : List Char) :
    domainMatch (l.map Char.toLower) = domainMatch l := by
  cases l with
  | nil => rfl
  | cons x rest =>
    simp only [List.map_cons, domainMatch, okChar_toLower, dotTail_map_toLower]

lemma atTail_map_toLower (l : List Char) :
    atTail (l.map Char.toLower) = atTail l := by
  induction l with
  | nil => rfl
  | cons x rest ih =>
    simp only [List.map_cons, atTail, toLower_beq_at, okChar_toLower,
      domainMatch_map_toLower, ih]

lemma emailCore_map_toLower (l : List Char) :
    emailCore (l.map Char.toLower) = emailCore l := by
  cases l with
  | nil => rfl
  | cons x rest =>
    simp only [List.map_cons, emailCore, okChar_toLower, atTail_map_toLower]

lemma validateEmail_iff_spec (s : String) :
    validateEmail s = true ↔ specEmailPattern s := by
  unfold validateEmail specEmailPattern
  rw [emailCore_map_toLower, emailCore_iff]

lemma validateEmail_data_ne_nil {s : String} (h : validateEmail s = true) :
    s.data ≠ [] := by
  intro hnil
  rw [validateEmail, hnil] at h
  simp [emailCore] at h

/-! ## 10. Claim theorems -/

/-- C7: for every string s, validateEmail s returns true if and only if s
matches the anchored regex pattern (nonempty non-space non-at local part,
at sign, nonempty label, dot, nonempty tail); in particular a at b dot co
is accepted, a at b is rejected, and a local part containing a space is
rejected. -/
theorem validateEmail_matches_regex :
    (∀ s : String, validateEmail s = true ↔ specEmailPattern s) ∧
    validateEmail "a@b.co" = true ∧
    validateEmail "a@b" = false ∧
    validateEmail "a b@c.co" = false :=
  ⟨validateEmail_iff_spec, by decide, by decide, by decide⟩

/-- C6: for every viewport width, getDeviceType classifies mobile exactly
below 768, tablet exactly in [768, 1024), and desktop exactly from 1024
up. -/
theorem getDeviceType_classification (w : Nat) :
    (getDeviceType w = "mobile" ↔ w < 768) ∧
    (getDeviceType w = "tablet" ↔ 768 ≤ w ∧ w < 1024) ∧
    (getDeviceType w = "desktop" ↔ 1024 ≤ w) := by
  unfold getDeviceType MOBILE_BREAKPOINT TABLET_BREAKPOINT
  by_cases h1 : w < 768 <;> by_cases h2 : w < 1024 <;>
    simp [h1, h2, show ("mobile" : String) ≠ "tablet" by decide,
      show ("mobile" : String) ≠ "desktop" by decide,
      show ("tablet" : String) ≠ "mobile" by decide,
      show ("tablet" : String) ≠ "desktop" by decide,
      show ("desktop" : String) ≠ "mobile" by decide,
      show ("desktop" : String) ≠ "tablet" by decide] <;> omega

/-- C4: validateChatForm accepts a payload of present fields exactly when
the trimmed name has length at least 2, the trimmed email passes
validateEmail, and the trimmed message has length at least 10; name Al
passes the length check, name A fails, a 9-character message fails and a
10-character message passes. -/
theorem validateChatForm_characterization :
    (∀ n e m : String,
      validateChatForm ⟨some n, some e, some m⟩ = true ↔
        (2 ≤ (jsTrim n).length ∧ validateEmail (jsTrim e) = true ∧
          10 ≤ (jsTrim m).length)) ∧
    validateChatForm ⟨some "Al", some "a@b.co", some "1234567890"⟩ = true ∧
    validateChatForm ⟨some "A", some "a@b.co", some "1234567890"⟩ = false ∧
    validateChatForm ⟨some "Al", some "a@b.co", some "123456789"⟩ = false ∧
    validateChatForm ⟨some "Al", some "a@b.co", some "1234567890"⟩ = true := by
  refine ⟨?_, by decide, by decide, by decide, by decide⟩
  intro n e m
  show (!((jsTrim n).data.isEmpty || (jsTrim n).length < 2) &&
    !((jsTrim e).data.isEmpty || !validateEmail (jsTrim e)) &&
    !((jsTrim m).data.isEmpty || (jsTrim m).length < 10)) = true ↔ _
  constructor
  · intro h
    simp only [Bool.and_eq_true, Bool.not_eq_true', Bool.or_eq_false_iff,
      decide_eq_false_iff_not, not_lt, Bool.not_eq_false'] at h
    exact ⟨h.1.1.2, h.1.2.2, h.2.2⟩
  · rintro ⟨hn, he, hm⟩
    have hn' : 2 ≤ (jsTrim n).data.length := hn
    have hm' : 10 ≤ (jsTrim m).data.length := hm
    have hne : (jsTrim n).data.isEmpty = false := by
      cases hd : (jsTrim n).data
      · rw [hd] at hn'; simp at hn'
      · simp [hd]
    have hee : (jsTrim e).data.isEmpty = false := by
      have := validateEmail_data_ne_nil he
      simp [List.isEmpty_iff, this]
    have hme : (jsTrim m).data.isEmpty = false := by
      cases hd : (jsTrim m).data
      · rw [hd] at hm'; simp at hm'
      · simp [hd]
    simp only [Bool.and_eq_true, Bool.not_eq_true', Bool.or_eq_false_iff,
      decide_eq_false_iff_not, not_lt, Bool.not_eq_false']
    exact ⟨⟨⟨hne, hn⟩, hee, he⟩, hme, hm⟩

/-- C1: when the composite validator rejects the form payload,
handleChatSubmit surfaces the inline error status and returns without
invoking the simulated transport, leaving the form contents and the chat
transcript unchanged. -/
theorem handleChatSubmit_validation_gate (st : ChatState) (r : ℚ)
    (h : validateChatForm st.form = false) :
    (handleChatSubmit st r).transportInvoked = false ∧
    (handleChatSubmit st r).outcome = SubmitOutcome.validationError ∧
    (handleChatSubmit st r).state.status =
      some ("Please fill in all required fields correctly.", StatusKind.error) ∧
    (handleChatSubmit st r).state.form = st.form ∧
    (handleChatSubmit st r).state.transcript = st.transcript := by
  simp [handleChatSubmit, h]

/-- Witness for C1: a concrete payload with empty fields fails the
composite validator, and the handler leaves the state untouched apart from
the error status. -/
theorem handleChatSubmit_validation_gate_witness :
    validateChatForm (⟨some "", some "", some ""⟩ : ChatFormData) = false ∧
    ((handleChatSubmit ⟨⟨some "", some "", some ""⟩, [], none, false⟩ 0).transportInvoked
        = false ∧
      (handleChatSubmit ⟨⟨some "", some "", some ""⟩, [], none, false⟩ 0).outcome
        = SubmitOutcome.validationError ∧
      (handleChatSubmit ⟨⟨some "", some "", some ""⟩, [], none, false⟩ 0).state.status
        = some ("Please fill in all required fields correctly.", StatusKind.error) ∧
      (handleChatSubmit ⟨⟨some "", some "", some ""⟩, [], none, false⟩ 0).state.form
        = (⟨some "", some "", some ""⟩ : ChatFormData) ∧
      (handleChatSubmit ⟨⟨some "", some "", some ""⟩, [], none, false⟩ 0).state.transcript
        = []) :=
  ⟨by decide,
    handleChatSubmit_validation_gate ⟨⟨some "", some "", some ""⟩, [], none, false⟩ 0
      (by decide)⟩

/-- C2: the simulated transport always resolves, never rejects, after a
delay of random times the bound difference plus the lower bound, which lies
in [CHAT_MIN_RESPONSE_TIME, CHAT_MAX_RESPONSE_TIME) for any Math.random
draw; consequently no submission run can finish in the failure branch. -/
theorem simulateApiCall_always_resolves (r : ℚ) (h0 : 0 ≤ r) (h1 : r < 1) :
    (∃ d : ℚ, simulateApiCall r = Except.ok d ∧
      CHAT_MIN_RESPONSE_TIME ≤ d ∧ d < CHAT_MAX_RESPONSE_TIME) ∧
    ∀ st : ChatState, (handleChatSubmit st r).outcome ≠ SubmitOutcome.failure := by
  constructor
  · refine ⟨_, rfl, ?_, ?_⟩
    · unfold CHAT_MIN_RESPONSE_TIME CHAT_MAX_RESPONSE_TIME
      nlinarith
    · unfold CHAT_MIN_RESPONSE_TIME CHAT_MAX_RESPONSE_TIME
      nlinarith
  · intro st
    by_cases hv : validateChatForm st.form <;>
      simp [handleChatSubmit, hv, simulateApiCall]

/-- Witness for C2: the draw one half lies in [0, 1), the transport
resolves with a delay in bounds, and a concrete submission cannot end in
the failure branch. -/
theorem simulateApiCall_always_resolves_witness :
    (0 : ℚ) ≤ 1 / 2 ∧ (1 / 2 : ℚ) < 1 ∧
    ((∃ d : ℚ, simulateApiCall (1 / 2) = Except.ok d ∧
        CHAT_MIN_RESPONSE_TIME ≤ d ∧ d < CHAT_MAX_RESPONSE_TIME) ∧
      ∀ st : ChatState,
        (handleChatSubmit st (1 / 2)).outcome ≠ SubmitOutcome.failure) :=
  ⟨by norm_num, by norm_num,
    simulateApiCall_always_resolves (1 / 2) (by norm_num) (by norm_num)⟩

/-- C3 counterexample: an optional empty email field refutes the claim as
stated.  validateField accepts a non-required email field whose value is
empty (the source skips the email check on a falsy value), while the
claimed characterization demands that the value match the email pattern,
which the empty string does not. -/
theorem validateField_claim_counterexample :
    validateField ⟨"", false, "email", -1⟩ = true ∧
    ¬ claimFieldValid ⟨"", false, "email", -1⟩ := by
  constructor
  · decide
  · intro h
    rcases h with ⟨-, h2, -⟩
    rcases h2 with h2 | h2
    · exact h2 rfl
    · exact absurd h2 (by decide)

set_option maxHeartbeats 1000000 in
/-- C3 amended: validateField returns true if and only if (not required, or
trimmed value nonempty) and (not type email, or trimmed value empty, or
trimmed value matches the email pattern) and (no positive declared minimum
length, or trimmed length at least the minimum). -/
theorem validateField_characterization (f : Field) :
    validateField f = true ↔
      ((f.required = false ∨ (jsTrim f.value).data ≠ []) ∧
       (f.type ≠ "email" ∨ (jsTrim f.value).data = [] ∨
         validateEmail (jsTrim f.value) = true) ∧
       (f.minLength ≤ 0 ∨ f.minLength ≤ ((jsTrim f.value).length : Int))) := by
  have e1 : (jsTrim f.value).data.isEmpty = false ↔ (jsTrim f.value).data ≠ [] := by
    simp only [Bool.eq_false_iff, ne_eq, List.isEmpty_iff]
  have e2 : (f.minLength = 0 ∨ f.minLength ≤ ((jsTrim f.value).length : Int)) ↔
      (f.minLength ≤ 0 ∨ f.minLength ≤ ((jsTrim f.value).length : Int)) := by
    omega
  unfold validateField
  simp only [Bool.and_eq_true, Bool.not_eq_true', Bool.and_eq_false_iff,
    Bool.not_eq_false', beq_iff_eq, beq_eq_false_iff_ne, ne_eq, bne_eq_false_iff_eq,
    decide_eq_false_iff_not, not_lt, List.isEmpty_iff, decide_eq_true_eq,
    Bool.not_eq_true]
  tauto

/-- C9 counterexample: the auto-close timer is not cancelled.  With a
successful submission at time 0 and the user closing the panel at 1000 ms
and reopening it at 2000 ms, the panel is open just before the timer fires,
yet the timer callback closes it, contradicting the claimed unless clause
under which a reopened panel stays open. -/
theorem chatAutoClose_claim_counterexample :
    ¬ claimAutoClose [(1000, ChatUiEvent.closeChat), (2000, ChatUiEvent.toggle)] 0 := by
  intro h
  have := h (by decide) (by decide)
  exact absurd this (by decide)

/-- C9 amended: the timer scheduled by a successful chat submission fires
exactly CHAT_AUTO_CLOSE (30000) milliseconds later and unconditionally sets
the panel closed, regardless of any user closes or reopens in between; when
the user already closed the panel the firing is an unobservable no-op. -/
theorem chatAutoClose_always_closes (userEvents : List (Nat × ChatUiEvent))
    (t0 : Nat) :
    autoCloseFireTime t0 = t0 + 30000 ∧
    openAfterAutoClose userEvents t0 = false :=
  ⟨rfl, rfl⟩

/-- C10 counterexample: starting from a state in which the nav is already
open on a mobile device, openNav followed by closeNav leaves isNavOpen
false, which differs from its pre-call value, refuting the claim for that
starting state. -/
theorem navRoundTrip_claim_counterexample :
    (closeNav (openNav ⟨true, "mobile", true, true, true, "hidden"⟩)).isNavOpen
        = false ∧
    (⟨true, "mobile", true, true, true, "hidden"⟩ : NavUiState).isNavOpen = true := by
  decide

/-- C10 amended: openNav followed by closeNav always leaves isNavOpen
false, which coincides with the pre-call value exactly when the nav started
closed; the body scroll-lock style is cleared when the device type is
mobile and left untouched otherwise. -/
theorem navRoundTrip_characterization (s : NavUiState) :
    (closeNav (openNav s)).isNavOpen = false ∧
    ((closeNav (openNav s)).isNavOpen = s.isNavOpen ↔ s.isNavOpen = false) ∧
    (s.deviceType = "mobile" → (closeNav (openNav s)).bodyOverflow = "") ∧
    (s.deviceType ≠ "mobile" → (closeNav (openNav s)).bodyOverflow = s.bodyOverflow) := by
  by_cases hd : s.deviceType = "mobile" <;> cases ho : s.isNavOpen <;>
    simp [closeNav, openNav, updateNavState, hd, ho]

/-- Witness for the C10 amended theorem at a concrete mobile state: the
round trip clears the scroll lock there. -/
theorem navRoundTrip_characterization_witness :
    (⟨false, "mobile", false, false, false, ""⟩ : NavUiState).deviceType = "mobile" ∧
    (closeNav (openNav ⟨false, "mobile", false, false, false, ""⟩)).bodyOverflow = "" :=
  ⟨rfl, (navRoundTrip_characterization
    ⟨false, "mobile", false, false, false, ""⟩).2.2.1 rfl⟩

lemma navFold_spec (p : Int) :
    ∀ (l : List PageSection) (acc : Option (String × Int)),
      (l.foldl (navScanStep p) acc = acc ∧
        ∀ s ∈ l, sectionContains p s →
          ∃ m : String × Int, acc = some m ∧ m.2 ≤ sectionDistance p s) ∨
      (∃ s ∈ l, sectionContains p s ∧
        l.foldl (navScanStep p) acc = some (s.id, sectionDistance p s) ∧
        (∀ t ∈ l, sectionContains p t →
          sectionDistance p s ≤ sectionDistance p t) ∧
        (∀ m : String × Int, acc = some m → sectionDistance p s < m.2)) := by
  intro l
  induction l with
  | nil => exact fun acc => Or.inl ⟨rfl, by simp⟩
  | cons x xs ih =>
    intro acc
    by_cases hc : sectionContains p x
    · rcases acc with - | ⟨a, m0⟩
      · have hstep : navScanStep p none x = some (x.id, sectionDistance p x) := by
          simp [navScanStep, hc]
        rcases ih (some (x.id, sectionDistance p x)) with
          ⟨h1, h2⟩ | ⟨s, hsmem, hcs, hres, hmin, hprev⟩
        · refine Or.inr ⟨x, List.mem_cons_self x xs, hc, ?_, ?_, ?_⟩
          · rw [List.foldl_cons, hstep, h1]
          · intro t ht hct
            rcases List.mem_cons.1 ht with rfl | ht
            · exact le_refl _
            · obtain ⟨m, hm, hle⟩ := h2 t ht hct
              injection hm with h3
              subst h3
              exact hle
          · intro m hm
            exact absurd hm (by simp)
        · refine Or.inr ⟨s, List.mem_cons_of_mem x hsmem, hcs, ?_, ?_, ?_⟩
          · rw [List.foldl_cons, hstep, hres]
          · intro t ht hct
            rcases List.mem_cons.1 ht with rfl | ht
            · exact le_of_lt (hprev (t.id, sectionDistance p t) rfl)
            · exact hmin t ht hct
          · intro m hm
            exact absurd hm (by simp)
      · by_cases hlt : sectionDistance p x < m0
        · have hstep : navScanStep p (some (a, m0)) x =
              some (x.id, sectionDistance p x) := by
            simp [navScanStep, hc, hlt]
          rcases ih (some (x.id, sectionDistance p x)) with
            ⟨h1, h2⟩ | ⟨s, hsmem, hcs, hres, hmin, hprev⟩
          · refine Or.inr ⟨x, List.mem_cons_self x xs, hc, ?_, ?_, ?_⟩
            · rw [List.foldl_cons, hstep, h1]
            · intro t ht hct
              rcases List.mem_cons.1 ht with rfl | ht
              · exact le_refl _
              · obtain ⟨m, hm, hle⟩ := h2 t ht hct
                injection hm with h3
                subst h3
                exact hle
            · intro m hm
              injection hm with h3
              subst h3
              exact hlt
          · refine Or.inr ⟨s, List.mem_cons_of_mem x hsmem, hcs, ?_, ?_, ?_⟩
            · rw [List.foldl_cons, hstep, hres]
            · intro t ht hct
              rcases List.mem_cons.1 ht with rfl | ht
              · exact le_of_lt (hprev (t.id, sectionDistance p t) rfl)
              · exact hmin t ht hct
            · intro m hm
              injection hm with h3
              subst h3
              exact lt_trans (hprev (x.id, sectionDistance p x) rfl) hlt
        · have hstep : navScanStep p (some (a, m0)) x = some (a, m0) := by
            simp [navScanStep, hc, hlt]
          rcases ih (some (a, m0)) with
            ⟨h1, h2⟩ | ⟨s, hsmem, hcs, hres, hmin, hprev⟩
          · refine Or.inl ⟨?_, ?_⟩
            · rw [List.foldl_cons, hstep, h1]
            · intro t ht hct
              rcases List.mem_cons.1 ht with rfl | ht
              · exact ⟨(a, m0), rfl, not_lt.1 hlt⟩
              · exact h2 t ht hct
          · refine Or.inr ⟨s, List.mem_cons_of_mem x hsmem, hcs, ?_, ?_, ?_⟩
            · rw [List.foldl_cons, hstep, hres]
            · intro t ht hct
              rcases List.mem_cons.1 ht with rfl | ht
              · exact le_trans (le_of_lt (hprev (a, m0) rfl)) (not_lt.1 hlt)
              · exact hmin t ht hct
            · intro m hm
              injection hm with h3
              subst h3
              exact hprev (a, m0) rfl
    · have hstep : navScanStep p acc x = acc := by
        simp [navScanStep, hc]
      rcases ih acc with ⟨h1, h2⟩ | ⟨s, hsmem, hcs, hres, hmin, hprev⟩
      · refine Or.inl ⟨by rw [List.foldl_cons, hstep, h1], ?_⟩
        intro s hs hcs
        rcases List.mem_cons.1 hs with rfl | hs
        · exact absurd hcs hc
        · exact h2 s hs hcs
      · refine Or.inr ⟨s, List.mem_cons_of_mem x hsmem, hcs,
          by rw [List.foldl_cons, hstep]; exact hres, ?_, hprev⟩
        intro t ht hct
        rcases List.mem_cons.1 ht with rfl | ht
        · exact absurd hct hc
        · exact hmin t ht hct

/-- C5 counterexample: a section whose id is the empty string refutes the
claim as stated.  With one section covering the probe point but carrying
the falsy id, the source's currentActive-or-home fallback sets
currentSection to home instead of that section's id. -/
theorem updateActiveNavLink_claim_counterexample :
    sectionContains (0 + 0 + 100) ⟨"", 0, 1000⟩ ∧
    updateActiveNavLink 0 0 [⟨"", 0, 1000⟩] = "home" ∧
    ¬ updateActiveNavLink 0 0 [⟨"", 0, 1000⟩] = PageSection.id ⟨"", 0, 1000⟩ :=
  ⟨by decide, by decide, by decide⟩

/-- C5 amended: updateActiveNavLink sets currentSection to home when no
section's extent (both ends inclusive) contains the probe point
scrollPosition + headerHeight + 100; otherwise it picks a containing
section of minimal distance from its top edge to the point and uses its id,
except that an empty id also falls back to home; on the spec's example

layout with probe point 600 it selects about. -/
theorem updateActiveNavLink_characterization :
    (∀ (scrollPosition headerHeight : Int) (sections : List PageSection),
      ((∀ s ∈ sections,
          ¬ sectionContains (scrollPosition + headerHeight + 100) s) →
        updateActiveNavLink scrollPosition headerHeight sections = "home") ∧
      ((∃ s ∈ sections, sectionContains (scrollPosition + headerHeight + 100) s) →
        ∃ s ∈ sections,
          sectionContains (scrollPosition + headerHeight + 100) s ∧
          (∀ t ∈ sections,
            sectionContains (scrollPosition + headerHeight + 100) t →
            sectionDistance (scrollPosition + headerHeight + 100) s ≤
              sectionDistance (scrollPosition + headerHeight + 100) t) ∧
          updateActiveNavLink scrollPosition headerHeight sections =
            (if s.id = "" then "home" else s.id))) ∧
    updateActiveNavLink 500 0 demoSections = "about" := by
  refine ⟨?_, by decide⟩
  intro scrollPosition headerHeight sections
  set q : Int := scrollPosition + headerHeight + 100 with hq
  constructor
  · intro hnone
    rcases navFold_spec q sections none with ⟨h1, -⟩ | ⟨s, hsmem, hcs, -, -, -⟩
    · unfold updateActiveNavLink navScan
      rw [← hq, h1]
    · exact absurd hcs (hnone s hsmem)
  · rintro ⟨s0, hs0, hc0⟩
    rcases navFold_spec q sections none with ⟨-, h2⟩ | ⟨s, hsmem, hcs, hres, hmin, -⟩
    · obtain ⟨m, hm, -⟩ := h2 s0 hs0 hc0
      exact absurd hm (by simp)
    · refine ⟨s, hsmem, hcs, hmin, ?_⟩
      unfold updateActiveNavLink navScan
      rw [← hq, hres]

/-- Witness for the C5 amended theorem: on the spec example layout the
containment hypothesis is discharged by the about section, and the tracker
output is its id. -/
theorem updateActiveNavLink_characterization_witness :
    ∃ s ∈ demoSections, sectionContains (500 + 0 + 100) s ∧
      (∀ t ∈ demoSections, sectionContains (500 + 0 + 100) t →
        sectionDistance (500 + 0 + 100) s ≤ sectionDistance (500 + 0 + 100) t) ∧
      updateActiveNavLink 500 0 demoSections = (if s.id = "" then "home" else s.id) :=
  (updateActiveNavLink_characterization.1 500 0 demoSections).2
    ⟨⟨"about", 500, 700⟩, by decide, by decide⟩

lemma mem_if_nil {α : Type} {x : α} {c : Prop} [Decidable c] {l : List α} :
    x ∈ (if c then l else []) ↔ c ∧ x ∈ l := by
  split
  · next h => simp [h]
  · next h => simp [h]

lemma count_foldl_erase {α : Type} [DecidableEq α] (x : α) :
    ∀ (reg att : List α),
      (reg.foldl (fun a l => a.erase l) att).count x = att.count x - reg.count x := by
  intro reg
  induction reg with
  | nil => intro att; simp
  | cons r rs ih =>
    intro att
    rw [List.foldl_cons, ih (att.erase r), List.count_erase, List.count_cons]
    by_cases h : r = x
    · simp [h]
      omega
    · have h2 : (r == x) = false := by simpa using h
      simp [h2]

lemma registry_handlers_recorded (p : Page) :
    ∀ l ∈ registryAfterInit p, isUnrecordedHandler l.handler = false := by
  intro l hl
  unfold registryAfterInit setupRecorded navObserveRecorded at hl
  simp only [List.mem_append, mem_if_nil, List.mem_cons, List.mem_map,
    List.mem_range, List.mem_singleton, List.not_mem_nil, or_false,
    false_or] at hl
  rcases hl with
    ((((((((⟨-, rfl⟩ | ⟨i, -, rfl⟩) | ⟨-, rfl⟩) | ⟨-, rfl⟩) |
      ⟨-, (rfl | (⟨i, -, rfl⟩ | ⟨i, -, rfl⟩))⟩) | ⟨-, rfl⟩) | ⟨i, -, rfl⟩) |
      (rfl | rfl | rfl | rfl | rfl | rfl | rfl)) | ⟨-, (rfl | rfl)⟩) <;> rfl

lemma registry_count_unrecorded_zero (p : Page) :
    ∀ l ∈ registryAfterInit p,
      (swListeners p).count l = 0 ∧ (netListeners p).count l = 0 ∧
      touchListeners.count l = 0 ∧ globalListeners.count l = 0 := by
  intro l hl
  have hrec := registry_handlers_recorded p l hl
  refine ⟨?_, ?_, ?_, ?_⟩ <;> rw [List.count_eq_zero] <;> intro hmem
  · unfold swListeners at hmem
    rw [mem_if_nil] at hmem
    obtain ⟨-, hmem⟩ := hmem
    simp only [List.mem_singleton] at hmem
    subst hmem
    exact absurd hrec (by decide)
  · unfold netListeners at hmem
    rw [mem_if_nil] at hmem
    obtain ⟨-, hmem⟩ := hmem
    simp only [List.mem_singleton] at hmem
    subst hmem
    exact absurd hrec (by decide)
  · unfold touchListeners at hmem
    simp only [List.mem_cons, List.mem_singleton, List.not_mem_nil, or_false] at hmem
    rcases hmem with rfl | rfl <;> exact absurd hrec (by decide)
  · unfold globalListeners at hmem
    simp only [List.mem_cons, List.mem_singleton, List.not_mem_nil, or_false] at hmem
    rcases hmem with rfl | rfl <;> exact absurd hrec (by decide)

lemma observers_recorded_count (p : Page) :
    ∀ o ∈ observersRecordedAfterInit p,
      ((if !p.hasNativeLazyLoading && p.hasIntersectionObserver then
        ([ObserverRec.imageFallbackObs] : List ObserverRec) else []).count o) = 0 := by
  intro o ho
  rw [List.count_eq_zero]
  intro hmem
  rw [mem_if_nil] at hmem
  obtain ⟨-, hmem⟩ := hmem
  simp only [List.mem_singleton] at hmem
  subst hmem
  unfold observersRecordedAfterInit at ho
  simp only [List.mem_append, mem_if_nil, List.mem_cons, List.mem_singleton,
    List.not_mem_nil, or_false] at ho
  rcases ho with ⟨-, h⟩ | h | h <;> exact absurd h (by decide)

/-- C8 counterexample: teardown does not silence previously-wired elements.
On a concrete fully-featured page, after initApp and destroy, the global
error handler installed by initApp at window is still attached, so
dispatching an error event at window still invokes application code, and
the set of attached listeners is nonempty. -/
theorem destroy_claim_counterexample :
    EvHandler.globalErrorH ∈
      invokedBy (destroy (initRuntime demoPage)) EvTarget.win EvName.errorEv ∧
    (destroy (initRuntime demoPage)).attached ≠ [] := by
  decide

/-- C8 amended: after destroy(), the listener registry and the recorded
observer list are empty, every triple the registry recorded has been
detached, and every recorded observer has been disconnected or
unregistered; attachments made outside the registry (the initApp global
error and rejection handlers, the passive touch no-ops, the service-worker
load hook, the network-information hook and the unrecorded lazy-image
observer) are not removed. -/
theorem destroy_detaches_recorded (p : Page) :
    (destroy (initRuntime p)).eventListeners = [] ∧
    (destroy (initRuntime p)).observersRecorded = [] ∧
    (∀ l ∈ (initRuntime p).eventListeners, l ∉ (destroy (initRuntime p)).attached) ∧
    (∀ o ∈ (initRuntime p).observersRecorded,
      o ∉ (destroy (initRuntime p)).observersActive) := by
  refine ⟨rfl, rfl, ?_, ?_⟩
  · intro l hl
    rw [← List.count_eq_zero]
    show ((registryAfterInit p).foldl (fun a x => a.erase x)
      (attachedAfterInit p)).count l = 0
    rw [count_foldl_erase]
    obtain ⟨h1, h2, h3, h4⟩ := registry_count_unrecorded_zero p l hl
    have hsplit : (attachedAfterInit p).count l =
        (registryAfterInit p).count l := by
      unfold attachedAfterInit registryAfterInit
      simp only [List.count_append, h1, h2, h3, h4]
      omega
    omega
  · intro o ho
    rw [← List.count_eq_zero]
    show ((observersRecordedAfterInit p).foldl (fun a x => a.erase x)
      (observersActiveAfterInit p)).count o = 0
    rw [count_foldl_erase]
    have hz := observers_recorded_count p o ho
    have hsplit : (observersActiveAfterInit p).count o =
        (observersRecordedAfterInit p).count o := by
      unfold observersActiveAfterInit
      rw [List.count_append, hz]
      omega
    omega

/-- Witness for the C8 amended theorem: the recorded window scroll listener
of the concrete page is detached by destroy. -/
theorem destroy_detaches_recorded_witness :
    (⟨EvTarget.win, EvName.scroll, EvHandler.scrollH⟩ : Listener) ∈
      (initRuntime demoPage).eventListeners ∧
    (⟨EvTarget.win, EvName.scroll, EvHandler.scrollH⟩ : Listener) ∉
      (destroy (initRuntime demoPage)).attached :=
  ⟨by decide, (destroy_detaches_recorded demoPage).2.2.1 _ (by decide)⟩

/-- Witness for C7: applying the characterization at a concrete accepted
string produces its regex decomposition. -/
theorem validateEmail_matches_regex_witness :
    specEmailPattern "a@b.co" :=
  (validateEmail_matches_regex.1 "a@b.co").mp (by decide)

/-- Witness for C6: a concrete width classifies as mobile via the
characterization. -/
theorem getDeviceType_classification_witness :
    getDeviceType 500 = "mobile" :=
  (getDeviceType_classification 500).1.mpr (by norm_num)

/-- Witness for C4: a concrete payload is accepted via the
characterization. -/
theorem validateChatForm_characterization_witness :
    validateChatForm ⟨some " Bob ", some " a@b.co ", some "hello there"⟩ = true :=
  (validateChatForm_characterization.1 " Bob " " a@b.co " "hello there").mpr
    ⟨by decide, by decide, by decide⟩

/-- Witness for the C3 amended theorem: a concrete optional text field with
a long-enough value is accepted via the characterization. -/
theorem validateField_characterization_witness :
    validateField ⟨" hello ", false, "text", 3⟩ = true :=
  (validateField_characterization ⟨" hello ", false, "text", 3⟩).mpr
    ⟨Or.inl rfl, Or.inl (by decide), Or.inr (by decide)⟩

/-- Witness for the C9 amended theorem: with no intervening user events the
timer closes the panel at the fire instant. -/
theorem chatAutoClose_always_closes_witness :
    openAfterAutoClose [] 0 = false :=
  (chatAutoClose_always_closes [] 0).2

end EJuuz
